import Mathlib

/-!
Shallow embedding of the astrostamps repository (src/astrostamps/tools.py and
src/astrostamps/base.py) and proofs about its cutout-fetching clients:
the single-shot SDSS client, the authenticated multi-band HSC client with its
RGB composition, the discovery-then-crop GALEX client, and the StampFactory
aggregator scaffolding.

External collaborators (the HTTP transport, the FITS and JPEG decoders, the
resolved WCS transform, astropy's make_lupton_rgb) are passed in as function
parameters; the code of the repository itself is translated definition by
definition.
-/

namespace Astrostamps

/-- Python exception outcomes raised by the code paths modelled here. -/
inductive PyError where
  | attributeError (obj attr : String)
  | valueError (msg : String)
  | indexError
  deriving Repr, DecidableEq

/-- Fixed-point decimal formatting of a value interpolated into a URL with a
percent-dot-d-f conversion: the value rounded to d decimal places, as carried
by the query string. -/
def fmtFixed (d : ℕ) (q : ℚ) : ℚ :=
  ((round (q * 10 ^ d) : ℤ) : ℚ) / 10 ^ d

/-! ## Single-shot SDSS client (tools.py, fetch_sdss_cutout, lines 19-56) -/

/-- Query parameters of the one SkyServer ImgCutout getjpeg request built at
tools.py lines 52-55: ra and dec carried at 8 decimal places, scale at 5
(the percent-f conversions of the URL format string), integer width and
height, and the option flag string. -/
structure SDSSRequest where
  ra : ℚ
  dec : ℚ
  scale : ℚ
  width : ℤ
  height : ℤ
  opt : String
  deriving Repr, DecidableEq

/-- The single request URL of fetch_sdss_cutout as a function of its inputs. -/
def sdssRequest (ra dec scale : ℚ) (width height : ℤ) (opt : String) : SDSSRequest :=
  { ra := fmtFixed 8 ra, dec := fmtFixed 8 dec, scale := fmtFixed 5 scale
    width := width, height := height, opt := opt }

/-- tools.py fetch_sdss_cutout: builds one URL from the inputs, opens it, and
decodes the JPEG response. The network transport together with the JPEG
decoder is the external collaborator net; the first component of the result
records the requests issued during the call. -/
def fetch_sdss_cutout {α : Type} (net : SDSSRequest → α)
    (ra dec scale : ℚ) (width height : ℤ) (opt : String) : List SDSSRequest × α :=
  ([sdssRequest ra dec scale width height opt],
   net (sdssRequest ra dec scale width height opt))

/-! ## Multi-band HSC client (tools.py, HSCSession, lines 59-122) -/

/-- HSCSession state after init: the basic-auth credential pair held in the
session and the base URL (tools.py lines 60-66). -/
structure HSCSession where
  user : String
  password : String
  base_url : String
  deriving Repr, DecidableEq

/-- One authenticated das_quarry quarryImage GET built at tools.py lines
82-85: the session's auth pair, ra and dec at 6 decimal places, the sw and sh
half-extent parameters at 6 decimal places, and the band character of the
HSC-percent-s filter parameter (the type=coadd, image=on, tract and rerun
parameters are fixed text). -/
structure HSCRequest where
  auth : String × String
  ra : ℚ
  dec : ℚ
  sw : ℚ
  sh : ℚ
  filter : Char
  deriving Repr, DecidableEq

/-- The request issued for one band character: sw and sh carry width/2.0 and
height/2.0 (tools.py line 85). -/
def hscRequest (s : HSCSession) (ra dec width height : ℚ) (c : Char) : HSCRequest :=
  { auth := (s.user, s.password), ra := fmtFixed 6 ra, dec := fmtFixed 6 dec
    sw := fmtFixed 6 (width / 2), sh := fmtFixed 6 (height / 2), filter := c }

/-- A single-band scientific image plane: the 2-D numeric array taken from the
second HDU of a decoded FITS response (tools.py line 90, hdu[1].data). -/
structure Exposure where
  rows : List (List ℚ)
  deriving Repr, DecidableEq

/-- The numpy shape of the plane. -/
def Exposure.shape (e : Exposure) : ℕ × ℕ :=
  (e.rows.length, (e.rows.headD []).length)

/-- The 3-D array produced by np.dstack: one plane per band, in band order,
indexed along axis 2. -/
structure Stack where
  planes : List Exposure
  deriving Repr, DecidableEq

/-- Indexing images[:, :, k]: the k-th plane of the stack, an IndexError when
k is out of bounds for axis 2. -/
def Stack.plane (s : Stack) (k : ℕ) : Except PyError Exposure :=
  match s.planes.get? k with
  | some e => Except.ok e
  | none => Except.error PyError.indexError

/-- np.dstack over a list of 2-D arrays: a ValueError on an empty list, a
ValueError when the planes do not all share one shape, otherwise the stack of
the planes in list order. -/
def dstack (es : List Exposure) : Except PyError Stack :=
  match es with
  | [] => Except.error (PyError.valueError "need at least one array to concatenate")
  | e :: rest =>
    if rest.all (fun e2 => e2.shape == e.shape) then Except.ok { planes := e :: rest }
    else Except.error (PyError.valueError "all the input array dimensions must match exactly")

/-- band.upper() of the requested band string (tools.py line 79), as its list
of characters. -/
def bandChars (band : String) : List Char := band.toList.map Char.toUpper

/-- The requests issued by the loop of fetch_hsc_cutout (tools.py lines
81-86): one GET per character of the uppercased band string, in order,
issued whether or not the response is ok. -/
def hscRequestList (s : HSCSession) (ra dec width height : ℚ) (band : String) :
    List HSCRequest :=
  (bandChars band).map (hscRequest s ra dec width height)

/-- The images list built by the loop of fetch_hsc_cutout (tools.py lines
80-88): the network collaborator net returns the decoded exposure of an ok
response and none for a response that is not ok; only ok responses are
appended. -/
def hscImages (net : HSCRequest → Option Exposure) (s : HSCSession)
    (ra dec width height : ℚ) (band : String) : List Exposure :=
  (bandChars band).filterMap (fun c => net (hscRequest s ra dec width height c))

/-- HSCSession.fetch_hsc_cutout (tools.py lines 68-91): uppercases the band
string, issues one authenticated GET per band character, keeps the ok
responses, and when imageonly is true replaces the list by np.dstack of the
planes (Sum.inl); when imageonly is false the list of decoded products is
returned as is (Sum.inr). The first component records the requests issued. -/
def fetch_hsc_cutout (net : HSCRequest → Option Exposure) (s : HSCSession)
    (ra dec width height : ℚ) (band : String) (imageonly : Bool) :
    List HSCRequest × Except PyError (Sum Stack (List Exposure)) :=
  let reqs := hscRequestList s ra dec width height band
  let images := hscImages net s ra dec width height band
  if imageonly then (reqs, (dstack images).map Sum.inl)
  else (reqs, Except.ok (Sum.inr images))

/-- HSCSession.make_rgb_image (tools.py lines 93-122): when images is None the
stack is fetched by fetch_hsc_cutout with imageonly left at its default True;
then the planes images[:, :, 0], images[:, :, 1], images[:, :, 2] are read in
order and handed to astropy's make_lupton_rgb, the external collaborator
lupton, with the stretch and Q parameters. -/
def make_rgb_image {α : Type} (lupton : Exposure → Exposure → Exposure → ℚ → ℚ → α)
    (net : HSCRequest → Option Exposure) (s : HSCSession)
    (ra dec width height : ℚ) (band : String) (stretch Q : ℚ)
    (images : Option Stack) : Except PyError α := do
  let stack ← match images with
    | some st => Except.ok st
    | none => dstack (hscImages net s ra dec width height band)
  let r ← stack.plane 0
  let g ← stack.plane 1
  let b ← stack.plane 2
  Except.ok (lupton r g b stretch Q)

/-! ## Discovery-then-crop GALEX client (tools.py, fetch_galex_cutout, lines 125-166) -/

/-- One row of the parsed SIAP VOTable TABLEDATA: the survey-name text of
column 0 and the URL text of column 20 (the two columns the code reads). -/
structure GalexRow where
  surveyName : String
  url : String
  deriving Repr, DecidableEq

/-- External collaborators of fetch_galex_cutout: world2pix resolves the WCS
of the FITS header fetched from a URL and applies it to (ra, dec) with
origin 0 (tools.py lines 160-161). -/
structure GalexEnv where
  world2pix : String → ℚ → ℚ → ℚ × ℚ

/-- A PIL image operation applied to the fetched preview raster, in the order
the code applies them. -/
inductive PILOp where
  | flipTopBottom
  | crop (left upper right lower : ℚ)
  deriving Repr, DecidableEq

/-- The image pipeline of a successful fetch: the URL whose FITS header the
WCS was resolved from, the URL of the fetched JPEG preview raster, and the
PIL operations applied to that raster left to right. -/
structure GalexCutout where
  fitsUrl : String
  jpgUrl : String
  ops : List PILOp
  deriving Repr, DecidableEq

/-- The outcome of fetch_galex_cutout: a cutout, or the None return together
with the printed no-image diagnostic (tools.py lines 156-158). -/
inductive GalexOutcome where
  | found (c : GalexCutout)
  | noImage (survey : String) (ra dec : ℚ)
  deriving Repr, DecidableEq

/-- pixscale = 1.5 arcsec/pixel (tools.py line 148). -/
def galexPixscale : ℚ := 3 / 2

/-- np.argwhere of the rows whose column-0 text equals the requested survey
(tools.py line 155): the matching row indices in row order; the string
comparison is an exact, case-sensitive equality. -/
def matchIdxs (table : List GalexRow) (survey : String) : List ℕ :=
  (table.enum.filter (fun p => p.2.surveyName == survey)).map Prod.fst

/-- fetch_galex_cutout (tools.py lines 125-166): queries the SIAP endpoint
with a zero SIZE, parses the VOTable into table, and matches the survey
column. With no match it prints the diagnostic and returns None. Otherwise
fits_url is column 20 of the FIRST matching row and the WCS of its header
maps (ra, dec) to the pixel point (x, y); jpg_url is column 20 of the LAST
matching row; crop_pix = np.floor(size/pixscale/2.0); and the returned image
is the raster at jpg_url flipped top-bottom and then cropped to the box
(x - crop_pix, y - crop_pix, x + crop_pix, y + crop_pix). -/
def fetch_galex_cutout (env : GalexEnv) (table : List GalexRow)
    (ra dec size : ℚ) (survey : String) : GalexOutcome :=
  match matchIdxs table survey with
  | [] => GalexOutcome.noImage survey ra dec
  | i0 :: rest =>
    let fits_url := (table.getD i0 { surveyName := "", url := "" }).url
    let xy := env.world2pix fits_url ra dec
    let iLast := (i0 :: rest).getLast (List.cons_ne_nil i0 rest)
    let jpg_url := (table.getD iLast { surveyName := "", url := "" }).url
    let crop_pix : ℚ := ((⌊size / galexPixscale / 2⌋ : ℤ) : ℚ)
    GalexOutcome.found
      { fitsUrl := fits_url, jpgUrl := jpg_url
        ops := [PILOp.flipTopBottom,
                PILOp.crop (xy.1 - crop_pix) (xy.2 - crop_pix)
                           (xy.1 + crop_pix) (xy.2 + crop_pix)] }

/-! ## base.py: the Survey base class and the StampFactory aggregator -/

/-- Attributes resolvable on the Python builtin function abs: the members of
a builtin_function_or_method object. abstractmethod is not among them. -/
def absAttributes : List String :=
  ["__call__", "__class__", "__doc__", "__module__", "__name__",
   "__qualname__", "__self__", "__text_signature__"]

/-- Attributes resolvable on the imported abc module that base.py uses. -/
def abcAttributes : List String := ["ABCMeta", "abstractmethod"]

/-- Python attribute lookup on an object with the given attribute set:
AttributeError when the name is absent. -/
def getattrModel (objName : String) (attrs : List String) (attr : String) :
    Except PyError Unit :=
  if attr ∈ attrs then Except.ok () else Except.error (PyError.attributeError objName attr)

/-- Importing astrostamps.base executes the module top level. The body of
class Survey (base.py lines 7-29) evaluates each method decorator in order:
abc.abstractmethod at line 23 resolves, then abs.abstractmethod at line 27
looks up the attribute abstractmethod on the BUILTIN abs. On success the
module would define its three class names; class SDSS (line 32) and
class StampFactory (line 39) are only reached if class Survey's body runs to
completion. -/
def base_module_import : Except PyError (List String) := do
  let _ ← getattrModel "abc" abcAttributes "abstractmethod"
  let _ ← getattrModel "abs" absAttributes "abstractmethod"
  Except.ok ["Survey", "SDSS", "StampFactory"]

/-- The keys of the StampFactory._surveys dict (base.py lines 41-44): one
entry, the key SDSS. Iterating a Python dict yields its keys. -/
def surveysKeys : List String := ["SDSS"]

/-- Python tuple-unpacking of a string into two targets: iterates the
characters and fails with a ValueError unless there are exactly two. -/
def unpack2 (s : String) : Except PyError (Char × Char) :=
  match s.toList with
  | [] => Except.error (PyError.valueError "not enough values to unpack")
  | [_] => Except.error (PyError.valueError "not enough values to unpack")
  | [a, b] => Except.ok (a, b)
  | _ :: _ :: _ :: _ => Except.error (PyError.valueError "too many values to unpack")

/-- StampFactory.getstamps (base.py lines 46-49): builds out = dict(), then
runs for name, survey in StampFactory._surveys — iterating the DICT yields
its keys, and each key is tuple-unpacked into (name, survey). Were the
unpacking of a key to succeed, survey would be a one-character string and
survey.fetch(ra, dec, size) would itself raise an AttributeError, and the
body has no return statement, so a normal exit returns Python None and the
dict out is discarded. No exception is caught anywhere in the body. -/
def getstamps (ra dec size : ℚ) : Except PyError (Option Unit) :=
  (surveysKeys.foldlM
    (fun (out : List (Char × Unit)) key => do
      let ns ← unpack2 key
      let _ ← (Except.error (PyError.attributeError "str" "fetch") :
                Except PyError Unit)
      Except.ok ((ns.1, ()) :: out))
    []) >>= fun _ => Except.ok none

/-! ## Theorems -/

/-- The character count of a string is the length of its character list. -/
theorem length_toList (s : String) : s.toList.length = s.length := rfl

/-- C8: for all valid inputs, fetch_sdss_cutout issues exactly one HTTP
request, the request does not depend on the network collaborator, and its
query parameters are the deterministic function sdssRequest of the inputs,
so two calls with identical inputs build the identical request URL. -/
theorem fetch_sdss_single_request_deterministic {α β : Type}
    (net : SDSSRequest → α) (net2 : SDSSRequest → β)
    (ra dec scale : ℚ) (width height : ℤ) (opt : String) :
    (fetch_sdss_cutout net ra dec scale width height opt).1.length = 1 ∧
    (fetch_sdss_cutout net ra dec scale width height opt).1 =
      (fetch_sdss_cutout net2 ra dec scale width height opt).1 ∧
    (fetch_sdss_cutout net ra dec scale width height opt).1 =
      [sdssRequest ra dec scale width height opt] :=
  ⟨rfl, rfl, rfl⟩

/-- C9: importing astrostamps.base evaluates the decorator expression
abs.abstractmethod of the Survey class body and raises AttributeError, so
the module never finishes importing and none of Survey, SDSS or StampFactory
becomes reachable. -/
theorem base_module_import_attributeError :
    base_module_import =
      Except.error (PyError.attributeError "abs" "abstractmethod") := by
  rfl

/-- C1 (code bug evidence): every call to StampFactory.getstamps raises
ValueError while tuple-unpacking the dict key SDSS, so it never returns the
per-service result map the spec describes; no per-service failure is caught
and nothing is returned. -/
theorem getstamps_raises (ra dec size : ℚ) :
    getstamps ra dec size =
      Except.error (PyError.valueError "too many values to unpack") := by
  rfl

/-- C7: fetch_hsc_cutout issues one authenticated GET per character of the
case-normalized (uppercased) band string, in order, each carrying the
session's auth pair, the coordinates, the half-extents width/2 and height/2
as the sw and sh parameters, and that band character as the filter
identifier; the number of requests equals the number of band characters. -/
theorem fetch_hsc_one_request_per_band (net : HSCRequest → Option Exposure)
    (s : HSCSession) (ra dec width height : ℚ) (band : String) (imageonly : Bool) :
    (fetch_hsc_cutout net s ra dec width height band imageonly).1 =
      (band.toList.map Char.toUpper).map (fun c =>
        { auth := (s.user, s.password), ra := fmtFixed 6 ra, dec := fmtFixed 6 dec
          sw := fmtFixed 6 (width / 2), sh := fmtFixed 6 (height / 2)
          filter := c }) ∧
    (fetch_hsc_cutout net s ra dec width height band imageonly).1.length =
      band.length := by
  refine ⟨?_, ?_⟩
  · cases imageonly <;> rfl
  · cases imageonly <;>
      simp [fetch_hsc_cutout, hscRequestList, bandChars, List.length_map,
        length_toList]

/-- C2: composing an RGB image from an exposure stack that holds fewer than
three bands fails: reading the third plane images[:, :, 2] (or an earlier
one) is out of bounds for axis 2, the stacking-precondition failure the spec
labels InvalidStackError. -/
theorem make_rgb_image_insufficient_bands {α : Type}
    (lupton : Exposure → Exposure → Exposure → ℚ → ℚ → α)
    (net : HSCRequest → Option Exposure) (s : HSCSession)
    (ra dec width height : ℚ) (band : String) (stretch Q : ℚ)
    (st : Stack) (hlt : st.planes.length < 3) :
    make_rgb_image lupton net s ra dec width height band stretch Q (some st) =
      Except.error PyError.indexError := by
  match st with
  | ⟨[]⟩ => rfl
  | ⟨[a]⟩ => rfl
  | ⟨[a, b]⟩ => rfl
  | ⟨a :: b :: c :: rest⟩ => simp at hlt; omega

/-- C2 witness: a concrete two-band stack makes make_rgb_image fail. -/
theorem make_rgb_image_insufficient_bands_witness :
    make_rgb_image (fun _ _ _ _ _ => ()) (fun _ => none)
      { user := "u", password := "p", base_url := "b" } 0 0 2 2 "irg" 5 8
      (some { planes := [{ rows := [[1]] }, { rows := [[2]] }] }) =
      Except.error PyError.indexError :=
  make_rgb_image_insufficient_bands (fun _ _ _ _ _ => ()) (fun _ => none)
    { user := "u", password := "p", base_url := "b" } 0 0 2 2 "irg" 5 8
    { planes := [{ rows := [[1]] }, { rows := [[2]] }] } (by decide)

/-- C10: a multi-band fetch with imageonly at its default true in which no
band request succeeds raises the empty-stack ValueError of np.dstack instead
of returning an empty stack. -/
theorem fetch_hsc_all_bands_fail (net : HSCRequest → Option Exposure)
    (s : HSCSession) (ra dec width height : ℚ) (band : String)
    (hfail : ∀ c, net (hscRequest s ra dec width height c) = none) :
    (fetch_hsc_cutout net s ra dec width height band true).2 =
      Except.error (PyError.valueError "need at least one array to concatenate") := by
  have himg : hscImages net s ra dec width height band = [] := by
    refine List.filterMap_eq_nil_iff.mpr ?_
    intro c _
    exact hfail c
  simp [fetch_hsc_cutout, himg, dstack, Except.map]

/-- C10 witness: every request failing on a concrete irg fetch raises. -/
theorem fetch_hsc_all_bands_fail_witness :
    (fetch_hsc_cutout (fun _ => none)
      { user := "u", password := "p", base_url := "b" } 0 0 2 2 "irg" true).2 =
      Except.error (PyError.valueError "need at least one array to concatenate") :=
  fetch_hsc_all_bands_fail (fun _ => none)
    { user := "u", password := "p", base_url := "b" } 0 0 2 2 "irg"
    (fun _ => rfl)

/-- C4: a band whose request does not succeed is silently omitted: fetching
bands irg when the I and R requests succeed with same-shape exposures and
the G request fails yields the two-entry stack of just those two planes, and
the fetch itself does not fail. -/
theorem fetch_hsc_partial_bands (net : HSCRequest → Option Exposure)
    (s : HSCSession) (ra dec width height : ℚ) (e1 e2 : Exposure)
    (hI : net (hscRequest s ra dec width height 'I') = some e1)
    (hR : net (hscRequest s ra dec width height 'R') = some e2)
    (hG : net (hscRequest s ra dec width height 'G') = none)
    (hshape : e2.shape = e1.shape) :
    (fetch_hsc_cutout net s ra dec width height "irg" true).2 =
      Except.ok (Sum.inl { planes := [e1, e2] }) ∧
    ({ planes := [e1, e2] } : Stack).planes.length = 2 := by
  have hb : bandChars "irg" = ['I', 'R', 'G'] := by decide
  have himg : hscImages net s ra dec width height "irg" = [e1, e2] := by
    simp [hscImages, hb, List.filterMap_cons, hI, hR, hG]
  refine ⟨?_, rfl⟩
  simp [fetch_hsc_cutout, himg, dstack, hshape, Except.map]

/-- C4 witness: a concrete network in which only the I and R requests
succeed yields exactly the two-plane stack. -/
theorem fetch_hsc_partial_bands_witness :
    (fetch_hsc_cutout
      (fun r => if r.filter = 'I' then some { rows := [[1]] }
                else if r.filter = 'R' then some { rows := [[2]] } else none)
      { user := "u", password := "p", base_url := "b" } 0 0 2 2 "irg" true).2 =
      Except.ok (Sum.inl { planes := [{ rows := [[1]] }, { rows := [[2]] }] }) ∧
    ({ planes := [{ rows := [[1]] }, { rows := [[2]] }] } : Stack).planes.length = 2 :=
  fetch_hsc_partial_bands
    (fun r => if r.filter = 'I' then some { rows := [[1]] }
              else if r.filter = 'R' then some { rows := [[2]] } else none)
    { user := "u", password := "p", base_url := "b" } 0 0 2 2
    { rows := [[1]] } { rows := [[2]] } rfl rfl rfl rfl

/-- C5: when no row of the discovery response has a survey-name column equal
to the requested survey (exact, case-sensitive comparison), fetch_galex_cutout
returns the None result carrying the printed diagnostic instead of raising. -/
theorem galex_no_match_returns_none (env : GalexEnv) (table : List GalexRow)
    (ra dec size : ℚ) (survey : String)
    (hnone : ∀ r ∈ table, r.surveyName ≠ survey) :
    fetch_galex_cutout env table ra dec size survey =
      GalexOutcome.noImage survey ra dec := by
  have hm : matchIdxs table survey = [] := by
    refine List.map_eq_nil_iff.mpr (List.filter_eq_nil_iff.mpr ?_)
    intro p hp
    have hmem := List.snd_mem_of_mem_enum hp
    simpa using hnone p.2 hmem
  unfold fetch_galex_cutout
  rw [hm]

/-- C5 witness: a table whose only row is for another survey yields the
no-image outcome. -/
theorem galex_no_match_returns_none_witness :
    fetch_galex_cutout { world2pix := fun _ _ _ => (0, 0) }
      [{ surveyName := "MIS", url := "u" }] 1 2 50 "AIS" =
      GalexOutcome.noImage "AIS" 1 2 :=
  galex_no_match_returns_none { world2pix := fun _ _ _ => (0, 0) }
    [{ surveyName := "MIS", url := "u" }] 1 2 50 "AIS" (by decide)

/-- C3 counterexample: with the default size 50 arcsec the crop window's side
is 2 * floor(size / pixscale / 2) = 32 pixels, which differs from
size / pixelScale = 100/3, so the window is not sized by sizeArcsec/pixelScale
pixels on each side as claimed. -/
theorem galex_crop_window_size_counterexample :
    fetch_galex_cutout { world2pix := fun _ _ _ => (100, 100) }
      [{ surveyName := "AIS", url := "u" }] 30 40 50 "AIS" =
      GalexOutcome.found
        { fitsUrl := "u", jpgUrl := "u"
          ops := [PILOp.flipTopBottom, PILOp.crop 84 84 116 116] } ∧
    ((116 : ℚ) - 84) ≠ 50 / galexPixscale := by
  constructor
  · have hm : matchIdxs [{ surveyName := "AIS", url := "u" }] "AIS" = [0] := by
      decide
    have hfloor : (⌊(50 : ℚ) / galexPixscale / 2⌋ : ℤ) = 16 := by
      norm_num [galexPixscale]
    unfold fetch_galex_cutout
    rw [hm]
    simp [hfloor]
    norm_num
  · norm_num [galexPixscale]

/-- C3 as amended: a successful fetch flips the raster vertically and then
crops it to the square window centered on the pixel point that the transform
resolved from the fetched coordinate descriptor assigns to (ra, dec), with
half-extent floor(sizeArcsec / pixelScale / 2) pixels, hence side
2 * floor(sizeArcsec / (2 * pixelScale)) pixels. -/
theorem galex_flip_then_crop_window (env : GalexEnv) (table : List GalexRow)
    (ra dec size : ℚ) (survey : String) (c : GalexCutout)
    (hc : fetch_galex_cutout env table ra dec size survey = GalexOutcome.found c) :
    c.ops = [PILOp.flipTopBottom,
      PILOp.crop
        ((env.world2pix c.fitsUrl ra dec).1 - ((⌊size / galexPixscale / 2⌋ : ℤ) : ℚ))
        ((env.world2pix c.fitsUrl ra dec).2 - ((⌊size / galexPixscale / 2⌋ : ℤ) : ℚ))
        ((env.world2pix c.fitsUrl ra dec).1 + ((⌊size / galexPixscale / 2⌋ : ℤ) : ℚ))
        ((env.world2pix c.fitsUrl ra dec).2 + ((⌊size / galexPixscale / 2⌋ : ℤ) : ℚ))] := by
  unfold fetch_galex_cutout at hc
  cases hm : matchIdxs table survey with
  | nil => rw [hm] at hc; cases hc
  | cons i0 rest =>
    rw [hm] at hc
    cases hc
    rfl

/-- C3 amended witness: the concrete fetch of the counterexample satisfies
the amended window description. -/
theorem galex_flip_then_crop_window_witness :
    ({ fitsUrl := "u", jpgUrl := "u"
       ops := [PILOp.flipTopBottom, PILOp.crop 84 84 116 116] } : GalexCutout).ops =
      [PILOp.flipTopBottom,
        PILOp.crop ((100 : ℚ) - ((⌊(50 : ℚ) / galexPixscale / 2⌋ : ℤ) : ℚ))
          ((100 : ℚ) - ((⌊(50 : ℚ) / galexPixscale / 2⌋ : ℤ) : ℚ))
          ((100 : ℚ) + ((⌊(50 : ℚ) / galexPixscale / 2⌋ : ℤ) : ℚ))
          ((100 : ℚ) + ((⌊(50 : ℚ) / galexPixscale / 2⌋ : ℤ) : ℚ))] :=
  galex_flip_then_crop_window { world2pix := fun _ _ _ => (100, 100) }
    [{ surveyName := "AIS", url := "u" }] 30 40 50 "AIS"
    { fitsUrl := "u", jpgUrl := "u"
      ops := [PILOp.flipTopBottom, PILOp.crop 84 84 116 116] }
    (by
      have hm : matchIdxs [{ surveyName := "AIS", url := "u" }] "AIS" = [0] := by
        decide
      have hfloor : (⌊(50 : ℚ) / galexPixscale / 2⌋ : ℤ) = 16 := by
        norm_num [galexPixscale]
      unfold fetch_galex_cutout
      rw [hm]
      simp [hfloor]
      norm_num)

/-- C6 counterexample: with two rows matching the requested survey, the
coordinate-transform descriptor is fetched from the first matching row while
the preview raster is fetched from the last matching row, so the two do not
come from one and the same matched row. -/
theorem galex_two_rows_counterexample :
    fetch_galex_cutout { world2pix := fun _ _ _ => (100, 100) }
      [{ surveyName := "AIS", url := "a.fits" },
       { surveyName := "AIS", url := "b.jpg" }] 30 40 50 "AIS" =
      GalexOutcome.found
        { fitsUrl := "a.fits", jpgUrl := "b.jpg"
          ops := [PILOp.flipTopBottom, PILOp.crop 84 84 116 116] } ∧
    ∀ i ∈ matchIdxs
        [{ surveyName := "AIS", url := "a.fits" },
         { surveyName := "AIS", url := "b.jpg" }] "AIS",
      ¬(([({ surveyName := "AIS", url := "a.fits" } : GalexRow),
          { surveyName := "AIS", url := "b.jpg" }].getD i
            { surveyName := "", url := "" }).url = "a.fits" ∧
        ([({ surveyName := "AIS", url := "a.fits" } : GalexRow),
          { surveyName := "AIS", url := "b.jpg" }].getD i
            { surveyName := "", url := "" }).url = "b.jpg") := by
  constructor
  · have hm : matchIdxs
        [{ surveyName := "AIS", url := "a.fits" },
         { surveyName := "AIS", url := "b.jpg" }] "AIS" = [0, 1] := by
      decide
    have hfloor : (⌊(50 : ℚ) / galexPixscale / 2⌋ : ℤ) = 16 := by
      norm_num [galexPixscale]
    unfold fetch_galex_cutout
    rw [hm]
    simp [hfloor]
    norm_num
  · decide

/-- C6 as amended: in a successful fetch the coordinate-transform descriptor
is read from the FIRST row matching the requested survey and the preview
raster from the LAST matching row; the two coincide exactly when one row
matches. -/
theorem galex_first_transform_last_raster (env : GalexEnv) (table : List GalexRow)
    (ra dec size : ℚ) (survey : String) (c : GalexCutout)
    (hc : fetch_galex_cutout env table ra dec size survey = GalexOutcome.found c) :
    ∃ i0 iL, (matchIdxs table survey).head? = some i0 ∧
      (matchIdxs table survey).getLast? = some iL ∧
      c.fitsUrl = (table.getD i0 { surveyName := "", url := "" }).url ∧
      c.jpgUrl = (table.getD iL { surveyName := "", url := "" }).url := by
  unfold fetch_galex_cutout at hc
  cases hm : matchIdxs table survey with
  | nil => rw [hm] at hc; cases hc
  | cons i0 rest =>
    rw [hm] at hc
    cases hc
    refine ⟨i0, (i0 :: rest).getLast (List.cons_ne_nil i0 rest), rfl, ?_, rfl, rfl⟩
    exact List.getLast?_eq_getLast (i0 :: rest) (List.cons_ne_nil i0 rest)

/-- C6 amended witness: on the two-row table the descriptor comes from row 0
and the raster from row 1. -/
theorem galex_first_transform_last_raster_witness :
    ∃ i0 iL,
      (matchIdxs
        [{ surveyName := "AIS", url := "a.fits" },
         { surveyName := "AIS", url := "b.jpg" }] "AIS").head? = some i0 ∧
      (matchIdxs
        [{ surveyName := "AIS", url := "a.fits" },
         { surveyName := "AIS", url := "b.jpg" }] "AIS").getLast? = some iL ∧
      ({ fitsUrl := "a.fits", jpgUrl := "b.jpg"
         ops := [PILOp.flipTopBottom, PILOp.crop 84 84 116 116] } : GalexCutout).fitsUrl =
        ([({ surveyName := "AIS", url := "a.fits" } : GalexRow),
          { surveyName := "AIS", url := "b.jpg" }].getD i0
            { surveyName := "", url := "" }).url ∧
      ({ fitsUrl := "a.fits", jpgUrl := "b.jpg"
         ops := [PILOp.flipTopBottom, PILOp.crop 84 84 116 116] } : GalexCutout).jpgUrl =
        ([({ surveyName := "AIS", url := "a.fits" } : GalexRow),
          { surveyName := "AIS", url := "b.jpg" }].getD iL
            { surveyName := "", url := "" }).url :=
  galex_first_transform_last_raster { world2pix := fun _ _ _ => (100, 100) }
    [{ surveyName := "AIS", url := "a.fits" },
     { surveyName := "AIS", url := "b.jpg" }] 30 40 50 "AIS"
    { fitsUrl := "a.fits", jpgUrl := "b.jpg"
      ops := [PILOp.flipTopBottom, PILOp.crop 84 84 116 116] }
    (by
      have hm : matchIdxs
          [{ surveyName := "AIS", url := "a.fits" },
           { surveyName := "AIS", url := "b.jpg" }] "AIS" = [0, 1] := by
        decide
      have hfloor : (⌊(50 : ℚ) / galexPixscale / 2⌋ : ℤ) = 16 := by
        norm_num [galexPixscale]
      unfold fetch_galex_cutout
      rw [hm]
      simp [hfloor]
      norm_num)

end Astrostamps
